import Mathlib

/-!
# Verification of the Instagram lead-collector bot core

Shallow embedding of `src/main.py` (Flask webhook bot) and
`src/utils/google_sheet.py`: the email validator, the in-memory session
store with TTL sweep, the message normalizer, the conversation state
machine, and the webhook delivery handler.  Python dict payloads are
modelled by a `Json` inductive; Python exceptions (AttributeError /
TypeError raised on `.get`, `.strip`, iteration, `in`) by an error
component threaded through the handlers; Python truthiness explicitly.
Timestamps are `Int` (Python ints).  Network side effects (outbound
sends, Lead Sink calls) are recorded as effect lists; the Lead Sink is
an oracle parameter that either returns `(status, body)` or raises.
-/

namespace InstagramBot

/-- A JSON value as produced by Flask's `request.get_json`: Python
`None`/bool/int/str/list/dict.  Numbers are modelled as `Int` (no claim
involves fractional payloads).  An `obj` is an association list with the
first binding of a key the authoritative one (Python dicts have unique
keys; program-built dicts here never repeat keys). -/
inductive Json where
  | null : Json
  | bool : Bool → Json
  | num : Int → Json
  | str : String → Json
  | arr : List Json → Json
  | obj : List (String × Json) → Json

mutual

/-- Structural equality of JSON values, modelling Python `==` as used
for dict keys (claims only involve string keys, so Python's numeric
`True == 1` cross-type aliasing is immaterial and not modelled). -/
def Json.beq : Json → Json → Bool
  | Json.null, Json.null => true
  | Json.bool a, Json.bool b => a == b
  | Json.num a, Json.num b => a == b
  | Json.str a, Json.str b => a == b
  | Json.arr a, Json.arr b => Json.beqList a b
  | Json.obj a, Json.obj b => Json.beqFields a b
  | _, _ => false

/-- Elementwise `Json.beq` on lists. -/
def Json.beqList : List Json → List Json → Bool
  | [], [] => true
  | x :: xs, y :: ys => Json.beq x y && Json.beqList xs ys
  | _, _ => false

/-- Elementwise `Json.beq` on association lists. -/
def Json.beqFields : List (String × Json) → List (String × Json) → Bool
  | [], [] => true
  | x :: xs, y :: ys => x.1 == y.1 && Json.beq x.2 y.2 && Json.beqFields xs ys
  | _, _ => false

end

/-- Python truthiness of a JSON value: `None`, `False`, `0`, `""`, `[]`,
`{}` are falsy, everything else truthy. -/
def truthy : Json → Bool
  | Json.null => false
  | Json.bool b => b
  | Json.num n => n != 0
  | Json.str s => s != ""
  | Json.arr xs => !xs.isEmpty
  | Json.obj fields => !fields.isEmpty

/-- Truthiness of a Python value that may be `None` coming from
`dict.get` (`none` models Python `None` just like `Json.null`). -/
def truthyO : Option Json → Bool
  | none => false
  | some v => truthy v

/-- `d.get(key)` on a dict: the value bound to `key`, or `None`. Only
called on values already known to be dicts. -/
def objGet (fields : List (String × Json)) (key : String) : Option Json :=
  match fields.find? (fun p => p.fst == key) with
  | some p => some p.snd
  | none => none

/-- Python `x or y`: `x` if truthy, else `y` (with `None` falsy). -/
def pyOr (x y : Option Json) : Option Json :=
  if truthyO x then x else y

/-- Python whitespace (`str.strip`, regex `\s`), ASCII range: space,
tab, newline, carriage return, vertical tab, form feed. -/
def isPySpace (c : Char) : Bool :=
  c == ' ' || c == '\t' || c == '\n' || c == '\x0d' || c == '\x0b' || c == '\x0c'

/-- `str.strip()` on the character list: drop leading and trailing
Python whitespace. -/
def stripChars (s : List Char) : List Char :=
  ((s.dropWhile isPySpace).reverse.dropWhile isPySpace).reverse

/-- `str.strip()` on a `String`. -/
def pyStrip (s : String) : String :=
  ⟨stripChars s.data⟩

/-!
## Email Validator (`main.py` lines 43-46)

`EMAIL_REGEX = re.compile(r"^[^@\s]+@[^@\s]+\.[^@\s]+$")`
`def is_valid_email(e): return bool(EMAIL_REGEX.match(e or ""))`
-/

/-- A character admitted by the regex class `[^@\s]`: not `@` and not
whitespace. -/
def isEmailChar (c : Char) : Bool :=
  c != '@' && !(isPySpace c)

/-- Split a string at its first `@`: `some (before, after)`, or `none`
when it has no `@`. -/
def splitAtFirstAt : List Char → Option (List Char × List Char)
  | [] => none
  | c :: cs =>
    if c = '@' then some ([], cs)
    else
      match splitAtFirstAt cs with
      | some p => some (c :: p.1, p.2)
      | none => none

/-- Strict (both-ends-anchored) match of `[^@\s]+@[^@\s]+\.[^@\s]+`.
Both character classes exclude `@`, so the `@` the regex consumes is
necessarily the first `@` of the string: before it a nonempty run of
`[^@\s]` characters, after it a nonempty all-`[^@\s]` remainder
containing a `.` that is neither its first nor its last character
(the two runs around that `.` are then the nonempty `[^@\s]+` groups,
`.` itself being an `[^@\s]` character). -/
def emailStrictMatch (s : List Char) : Bool :=
  match splitAtFirstAt s with
  | some (u, w) =>
    !u.isEmpty && u.all isEmailChar &&
    !w.isEmpty && w.all isEmailChar &&
    ((w.drop 1).dropLast.contains '.')
  | none => false

/-- `EMAIL_REGEX.match(s)` as a Bool: Python's `$` also matches just
before a single trailing newline, so a string ending in `'\n'` matches
when the string without that newline matches strictly. -/
def emailRegexMatch (s : List Char) : Bool :=
  emailStrictMatch s ||
    (s.getLast? == some '\n' && emailStrictMatch s.dropLast)

/-- `is_valid_email(e)` from `main.py:45-46`; the argument is an
optional string (`None` allowed), `e or ""` replacing falsy input by
the empty string. -/
def is_valid_email (e : Option String) : Bool :=
  emailRegexMatch (e.getD "").data

/-- The anchored pattern `^[^@\s]+@[^@\s]+\.[^@\s]+$` read as the spec
states it: three nonempty groups of non-`@`-non-whitespace characters
with a literal `@` and a literal `.` between them, anchored at both
ends. -/
def AnchoredEmailPattern (s : List Char) : Prop :=
  ∃ u v z : List Char,
    u ≠ [] ∧ v ≠ [] ∧ z ≠ [] ∧
    u.all isEmailChar ∧ v.all isEmailChar ∧ z.all isEmailChar ∧
    s = u ++ ['@'] ++ v ++ ['.'] ++ z

/-!
## Session Store (`main.py` lines 36-77)

`user_state: {user_id: {"state": "...", "name": "...", "ts": unix_ts}}`.
A session dict may lack any of the three keys, so each field is an
`Option`; the store maps user ids (arbitrary payload values, as in
Python where any hashable can key the dict) to sessions.  The lock only
serializes access; the sequential semantics modelled here is the
lock-respecting interleaving-free behaviour.
-/

/-- One session dict: `state`, `name`, `ts` keys, each possibly
absent. -/
structure Session where
  state : Option String
  name : Option String
  ts : Option Int
deriving DecidableEq

/-- Python truthiness of a session dict: falsy iff empty (no keys). -/
def Session.truthyDict (s : Session) : Bool :=
  s.state.isSome || s.name.isSome || s.ts.isSome

/-- The `user_state` map: user id (a payload value) to session. -/
def Store : Type := Json → Option Session

/-- The empty `user_state` dict at module load. -/
def Store.empty : Store := fun _ => none

/-- `set_state(user_id, state_dict)` (`main.py:51-54`): stamps
`ts = now` into the dict and overwrites the entry wholesale. -/
def set_state (store : Store) (now : Int) (uid : Json) (s : Session) : Store :=
  fun k => if Json.beq k uid then some { s with ts := some now } else store k

/-- `clear_state(user_id)` (`main.py:56-59`): delete if present. -/
def clear_state (store : Store) (uid : Json) : Store :=
  fun k => if Json.beq k uid then none else store k

/-- `get_state(user_id)` (`main.py:61-63`). -/
def get_state (store : Store) (uid : Json) : Option Session :=
  store uid

/-- `STATE_TTL = 10 * 60` seconds (`main.py:32`). -/
def STATE_TTL : Int := 10 * 60

/-- One pass of the body of `_cleanup_loop` (`main.py:66-77`): with
`cutoff = now - STATE_TTL`, delete every entry whose `s.get("ts", 0)`
is below the cutoff; every other entry is left untouched. -/
def cleanup_pass (now : Int) (store : Store) : Store :=
  fun k =>
    match store k with
    | some s => if s.ts.getD 0 < now - STATE_TTL then none else some s
    | none => none

/-!
## Outbound texts (`main.py` lines 101-119, 228, 244, 252)

The literal strings sent by `send_text` calls; f-string interpolation
becomes string concatenation.
-/

/-- The greeting/pitch text of `send_welcome_and_ask_name`
(`main.py:102-107`). -/
def pitchText : String :=
  "سلام! ممنون از پیام شما 🙏\n\n" ++
  "ما یک سیستم آموزشی و «فرانچایز دیجیتال مارکتینگ» داریم که به افراد و کسب‌وکارها کمک می‌کند " ++
  "تا با آموزش گام‌به‌گام و ابزارهای آماده، کسب‌وکار آنلاین خودشون رو راه‌اندازی و مقیاس کنن.\n\n" ++
  "اگر دوست داری توضیحات کامل و لینک‌های مربوطه رو برات بفرستم، لطفاً اول نام خودت رو بفرست."

/-- The ask-for-email text of `ask_for_email` (`main.py:112`). -/
def askEmailText (name : String) : String :=
  "خیلی عالی " ++ name ++ " 🙌\nحالا لطفاً ایمیل خودت رو وارد کن تا اطلاعات و راهنمای کامل برات ارسال بشه."

/-- First confirmation text of `confirm_saved_and_finish`
(`main.py:116`). -/
def confirmText (name : String) : String :=
  "✅ " ++ name ++ " عزیز، اطلاعاتت ثبت شد. تیم ما به زودی با تو تماس می‌گیره.\nمتشکرم!"

/-- Second confirmation text of `confirm_saved_and_finish`
(`main.py:118`). -/
def menuText : String :=
  "اگر سوال دیگری داری، پیام بده یا بنویس \x27راهنما\x27 برای دیدن گزینه‌ها."

/-- Invalid-email retry prompt (`main.py:228`). -/
def invalidEmailText : String :=
  "ایمیل وارد شده نامعتبر است. لطفاً آدرس ایمیل معتبر وارد کنید (مثال: name@example.com)."

/-- Generic Lead-Sink-failure text (`main.py:244`). -/
def saveErrorText : String :=
  "خطا در ذخیره‌سازی اطلاعات. لطفاً بعداً تلاش کنید."

/-- Default-fallback text (`main.py:252`). -/
def fallbackText : String :=
  "پیام شما دریافت شد — لطفاً \x27ثبت‌نام\x27 را برای شروع ارسال کنید یا اول نام خود را بفرستید."

/-!
## Effects and the Lead Sink oracle

`send_text` (`main.py:85-99`) performs a network POST whose outcome is
never consulted by the callers modelled here (its own try/except makes
it total), so an outbound send is recorded as a `(recipient, text)`
effect.  `save_to_google_sheet` (`utils/google_sheet.py:6-14`) POSTs
`(user_id, name, email)` and returns `(status_code, text)`, or raises a
network exception; its environment-determined outcome is an oracle
parameter. -/

/-- Outcome of one `save_to_google_sheet` call: `requests.post`
returned `(status_code, text)`, or raised. -/
inductive SinkResult where
  | ok (status : Int) (body : String)
  | exn (msg : String)

/-- The Lead Sink oracle: outcome of calling
`save_to_google_sheet(user_id, name, email)`. -/
def Sink : Type := Json → String → String → SinkResult

/-- Observable side effects: outbound sends `(recipient, text)` in
order, and Lead Sink calls `(user_id, name, email)` in order. -/
structure Effects where
  sends : List (Json × String)
  sinkCalls : List (Json × String × String)

/-- No side effects. -/
def noEffects : Effects := ⟨[], []⟩

/-- Concatenation of effect records. -/
def Effects.append (a b : Effects) : Effects :=
  ⟨a.sends ++ b.sends, a.sinkCalls ++ b.sinkCalls⟩

/-!
## Conversation Engine (`main.py` lines 207-253)

The flow part of `_handle_message_event`, reached once a truthy sender
id and a nonempty stripped text are in hand.  No statement in this
region can raise: `send_text` catches its own exceptions and the
`save_to_google_sheet` call is wrapped in try/except. -/

/-- Truthiness of `state` as tested by `if not state:`
(`main.py:211`): `None` and the empty dict are falsy. -/
def truthyOSession : Option Session → Bool
  | none => false
  | some s => s.truthyDict

/-- `main.py:207-253`: dispatch on the current session.  Returns the
updated store and the effects of this message. -/
def handleFlow (store : Store) (now : Int) (sink : Sink) (sender : Json)
    (text : String) : Store × Effects :=
  let state := get_state store sender
  let state_name : Option String := match state with
    | some s => s.state
    | none => none
  if truthyOSession state = false then
    -- lines 211-215: send_welcome_and_ask_name = send pitch, set expecting_name
    (set_state store now sender ⟨some "expecting_name", none, none⟩,
     ⟨[(sender, pitchText)], []⟩)
  else if state_name == some "expecting_name" then
    -- lines 217-222: store name, ask email
    (set_state store now sender ⟨some "expecting_email", some text, none⟩,
     ⟨[(sender, askEmailText text)], []⟩)
  else if state_name == some "expecting_email" then
    if is_valid_email (some text) = false then
      -- lines 227-234: retry prompt; refresh ts in place, state kept
      let s := (get_state store sender).getD ⟨none, none, none⟩
      (fun k => if Json.beq k sender then some { s with ts := some now } else store k,
       ⟨[(sender, invalidEmailText)], []⟩)
    else
      -- lines 236-249: s = get_state(...) or {}; name = s.get("name", "")
      let s : Session := match get_state store sender with
        | some d => if d.truthyDict then d else ⟨none, none, none⟩
        | none => ⟨none, none, none⟩
      let name := s.name.getD ""
      match sink sender name text with
      | SinkResult.exn _ =>
        -- lines 242-246: failure text, clear state
        (clear_state store sender,
         ⟨[(sender, saveErrorText)], [(sender, name, text)]⟩)
      | SinkResult.ok _status _body =>
        -- line 248: confirm_saved_and_finish — status code never examined
        (clear_state store sender,
         ⟨[(sender, confirmText name), (sender, menuText)], [(sender, name, text)]⟩)
  else
    -- lines 251-253: default fallback
    (set_state store now sender ⟨some "expecting_name", none, none⟩,
     ⟨[(sender, fallbackText)], []⟩)

/-- The guard under which `main.py:251-253` (the default fallback)
executes for a normalized message from `sender`: a truthy session
exists whose `state` is neither `expecting_name` nor
`expecting_email`. -/
def takesFallbackBranch (store : Store) (sender : Json) : Bool :=
  let state := get_state store sender
  let state_name : Option String := match state with
    | some s => s.state
    | none => none
  truthyOSession state &&
    state_name != some "expecting_name" &&
    state_name != some "expecting_email"

/-!
## Message normalization (`main.py` lines 173-205)

`_handle_message_event` receives an arbitrary payload value.  Every
`payload.get(...)` raises `AttributeError` when the payload is not a
dict, and `(text or "").strip()` raises when the resolved text is a
truthy non-string; those raises propagate to the `try` in `webhook`.
-/

/-- Result of handling one payload (or one delivery): the store and
effects produced before returning or raising, and the exception, if
one was raised. -/
structure StepResult where
  store : Store
  effects : Effects
  error : Option String

/-- `main.py:173-205` followed by the flow of lines 207-253:
normalize one payload and process it. -/
def handleMessageEvent (store : Store) (now : Int) (sink : Sink)
    (payload : Json) : StepResult :=
  match payload with
  | Json.obj fields =>
    -- lines 184-187: sender id from sender.id, else from.id
    let s1 : Option Json :=
      match objGet fields "sender" with
      | some (Json.obj sf) => objGet sf "id"
      | _ => none
    let senderId : Option Json :=
      match objGet fields "from" with
      | some (Json.obj ff) => pyOr s1 (objGet ff "id")
      | _ => s1
    -- line 190: msg = payload.get("message") or {}
    let msg : Json :=
      match objGet fields "message" with
      | some v => if truthy v then v else Json.obj []
      | none => Json.obj []
    -- lines 191-192: text = msg.get("text") or msg.get("body") or text
    let t1 : Option Json :=
      match msg with
      | Json.obj mf => pyOr (pyOr (objGet mf "text") (objGet mf "body")) none
      | _ => none
    -- line 195: text = text or payload.get("text") or payload.get("body") or ""
    let tFinal : Json :=
      match pyOr (pyOr t1 (objGet fields "text")) (objGet fields "body") with
      | some v => if truthy v then v else Json.str ""
      | none => Json.str ""
    if truthyO senderId = false then
      -- lines 197-199: no sender id — reject (log only)
      ⟨store, noEffects, none⟩
    else
      -- line 201: text = (text or "").strip() — raises on truthy non-string
      match if truthy tFinal then tFinal else Json.str "" with
      | Json.str s =>
        let text := pyStrip s
        if text == "" then
          -- lines 202-205: ignore empty/non-text
          ⟨store, noEffects, none⟩
        else
          let (store2, eff) := handleFlow store now sink (senderId.getD Json.null) text
          ⟨store2, eff, none⟩
      | _ => ⟨store, noEffects, some "AttributeError: strip"⟩
  | _ => ⟨store, noEffects, some "AttributeError: get"⟩

/-!
## Webhook delivery handler (`main.py` lines 138-171)

Python iteration, `in`, and `.get` each raise on inapplicable values;
the `try` around lines 147-166 catches any such exception (and any
exception from a sub-event) and answers 500, keeping the store and
effect mutations already performed. -/

/-- `d.get(key)` on an arbitrary value: `AttributeError` unless a
dict. -/
def pyGet (v : Json) (key : String) : Except String (Option Json) :=
  match v with
  | Json.obj f => Except.ok (objGet f key)
  | _ => Except.error "AttributeError: get"

/-- `d.get(key, default)` on an arbitrary value. -/
def pyGetD (v : Json) (key : String) (dflt : Json) : Except String Json :=
  (pyGet v key).map (fun o => o.getD dflt)

/-- Python `for x in v`: lists yield elements, strings yield
one-character strings, dicts yield their keys, all else raises
`TypeError`. -/
def pyIter : Json → Except String (List Json)
  | Json.arr xs => Except.ok xs
  | Json.str s => Except.ok (s.data.map (fun c => Json.str (String.mk [c])))
  | Json.obj f => Except.ok (f.map (fun p => Json.str p.1))
  | _ => Except.error "TypeError: not iterable"

/-- Whether `needle` occurs as a contiguous substring of `hay`. -/
def listIsInfix (needle hay : List Char) : Bool :=
  hay.tails.any (fun t => needle.isPrefixOf t)

/-- Python `key in v`: key lookup on dicts, substring test on strings,
membership on lists, `TypeError` otherwise. -/
def pyContains (v : Json) (key : String) : Except String Bool :=
  match v with
  | Json.obj f => Except.ok ((f.find? (fun p => p.1 == key)).isSome)
  | Json.str s => Except.ok (listIsInfix key.data s.data)
  | Json.arr xs => Except.ok (xs.any (fun x => Json.beq x (Json.str key)))
  | _ => Except.error "TypeError: not a container"

/-- Run `_handle_message_event` over a list of payloads in order,
stopping at (and propagating) the first exception, keeping all store
and effect mutations made so far (`for` loops inside the `try`). -/
def runHandlers (now : Int) (sink : Sink) (store : Store) (eff : Effects) :
    List Json → StepResult
  | [] => ⟨store, eff, none⟩
  | p :: ps =>
    let r := handleMessageEvent store now sink p
    match r.error with
    | some e => ⟨r.store, eff.append r.effects, some e⟩
    | none => runHandlers now sink r.store (eff.append r.effects) ps

/-- `main.py:155-166`: process one element of `entry.get("changes")`. -/
def processChange (now : Int) (sink : Sink) (store : Store) (eff : Effects)
    (change : Json) : StepResult :=
  match pyGetD change "value" (Json.obj []) with
  | Except.error e => ⟨store, eff, some e⟩
  | Except.ok value =>
    match pyContains value "messages" with
    | Except.error e => ⟨store, eff, some e⟩
    | Except.ok true =>
      match pyGetD value "messages" (Json.arr []) with
      | Except.error e => ⟨store, eff, some e⟩
      | Except.ok msgsJson =>
        match pyIter msgsJson with
        | Except.error e => ⟨store, eff, some e⟩
        | Except.ok ms => runHandlers now sink store eff ms
    | Except.ok false =>
      match pyContains value "message" with
      | Except.error e => ⟨store, eff, some e⟩
      | Except.ok true =>
        -- line 162: handle({"message": value.get("message"), "from": value.get("from")})
        match pyGet value "message" with
        | Except.error e => ⟨store, eff, some e⟩
        | Except.ok m =>
          match pyGet value "from" with
          | Except.error e => ⟨store, eff, some e⟩
          | Except.ok f =>
            let payload := Json.obj
              [("message", m.getD Json.null), ("from", f.getD Json.null)]
            let r := handleMessageEvent store now sink payload
            ⟨r.store, eff.append r.effects, r.error⟩
      | Except.ok false =>
        -- lines 164-166: if "from" in value and ("text" in value or "message" in value)
        match pyContains value "from" with
        | Except.error e => ⟨store, eff, some e⟩
        | Except.ok fromIn =>
          if fromIn then
            match pyContains value "text" with
            | Except.error e => ⟨store, eff, some e⟩
            | Except.ok textIn =>
              match pyContains value "message" with
              | Except.error e => ⟨store, eff, some e⟩
              | Except.ok msgIn =>
                if textIn || msgIn then
                  let r := handleMessageEvent store now sink value
                  ⟨r.store, eff.append r.effects, r.error⟩
                else ⟨store, eff, none⟩
          else ⟨store, eff, none⟩

/-- Fold `processChange` over the changes list, propagating the first
exception. -/
def processChanges (now : Int) (sink : Sink) (store : Store) (eff : Effects) :
    List Json → StepResult
  | [] => ⟨store, eff, none⟩
  | c :: cs =>
    let r := processChange now sink store eff c
    match r.error with
    | some e => ⟨r.store, r.effects, some e⟩
    | none => processChanges now sink r.store r.effects cs

/-- `main.py:149-166`: process one entry — its `messaging` list, then
its `changes` list. -/
def processEntry (now : Int) (sink : Sink) (store : Store) (eff : Effects)
    (entry : Json) : StepResult :=
  -- line 151: messaging_list = entry.get("messaging") or []
  match pyGet entry "messaging" with
  | Except.error e => ⟨store, eff, some e⟩
  | Except.ok mlOpt =>
    let ml : Json :=
      match mlOpt with
      | some v => if truthy v then v else Json.arr []
      | none => Json.arr []
    match pyIter ml with
    | Except.error e => ⟨store, eff, some e⟩
    | Except.ok msgs =>
      let r := runHandlers now sink store eff msgs
      match r.error with
      | some e => ⟨r.store, r.effects, some e⟩
      | none =>
        -- line 155: for change in entry.get("changes", [])
        match pyGetD entry "changes" (Json.arr []) with
        | Except.error e => ⟨r.store, r.effects, some e⟩
        | Except.ok chJson =>
          match pyIter chJson with
          | Except.error e => ⟨r.store, r.effects, some e⟩
          | Except.ok chs => processChanges now sink r.store r.effects chs

/-- Fold `processEntry` over the entries, propagating the first
exception. -/
def processEntries (now : Int) (sink : Sink) (store : Store) (eff : Effects) :
    List Json → StepResult
  | [] => ⟨store, eff, none⟩
  | x :: xs =>
    let r := processEntry now sink store eff x
    match r.error with
    | some e => ⟨r.store, r.effects, some e⟩
    | none => processEntries now sink r.store r.effects xs

/-- The body of `jsonify({"status": "error", "message": str(e)})`
serialized (`main.py:169`). -/
def jsonErrorBody (e : String) : String :=
  "\x7b\"status\": \"error\", \"message\": \"" ++ e ++ "\"\x7d"

/-- The `try` block of `webhook` (`main.py:146-166`): everything after
the falsy-body check, with the exception it raised, if any, in
`error`. -/
def webhookTry (store : Store) (now : Int) (sink : Sink) (d : Json) :
    StepResult :=
  -- line 148: entries = data.get("entry", []) — raises if data is not a dict
  match pyGetD d "entry" (Json.arr []) with
  | Except.error e => ⟨store, noEffects, some e⟩
  | Except.ok entriesJson =>
    match pyIter entriesJson with
    | Except.error e => ⟨store, noEffects, some e⟩
    | Except.ok entries => processEntries now sink store noEffects entries

/-- `main.py:138-171`: the POST handler.  `data` is
`request.get_json(silent=True)`: `none` when the body is absent or
unparsable.  Returns `((body, status), store, effects)`. -/
def webhook (store : Store) (now : Int) (sink : Sink) (data : Option Json) :
    (String × Nat) × Store × Effects :=
  match data with
  | none => (("no data", 400), store, noEffects)
  | some d =>
    if truthy d = false then (("no data", 400), store, noEffects)
    else
      let r := webhookTry store now sink d
      match r.error with
      | some e => ((jsonErrorBody e, 500), r.store, r.effects)
      | none => (("ok", 200), r.store, r.effects)

/-!
## Verification endpoint (`main.py` lines 124-133)

`request.args.get` yields `none` for an absent query parameter;
Python `==` between `None` and `None` is `True`, matching `Option`
equality. -/

/-- `verify()`: echo the challenge with 200 when `hub.mode` is
`"subscribe"` and `hub.verify_token` equals the configured
`VERIFY_TOKEN`, else 403. -/
def verify (VERIFY_TOKEN mode token challenge : Option String) :
    Option String × Nat :=
  if mode == some "subscribe" && token == VERIFY_TOKEN then (challenge, 200)
  else (some "Verification failed", 403)

/-!
## Concrete instances used by round-trip and counterexample theorems
-/

/-- A Lead Sink that always reports HTTP 200 success. -/
def sinkAlwaysOk : Sink := fun _ _ _ => SinkResult.ok 200 "ok"

/-- A Lead Sink whose POST goes through but answers HTTP 500: a non-2xx
status, not a raised exception. -/
def sinkStatus500 : Sink := fun _ _ _ => SinkResult.ok 500 "Internal Server Error"

/-- A fixed user identifier. -/
def userA : Json := Json.str "user-1"

/-- A messaging-shaped sub-event from `userA` with text `t`. -/
def msgPayload (t : String) : Json :=
  Json.obj [("sender", Json.obj [("id", userA)]),
            ("message", Json.obj [("text", Json.str t)])]

/-- Round-trip step 1: `"شروع"` from a brand-new user. -/
def rt1 : StepResult := handleMessageEvent Store.empty 100 sinkAlwaysOk (msgPayload "شروع")

/-- Round-trip step 2: `"Alice"`. -/
def rt2 : StepResult := handleMessageEvent rt1.store 130 sinkAlwaysOk (msgPayload "Alice")

/-- Round-trip step 3: `"alice@example.com"`. -/
def rt3 : StepResult := handleMessageEvent rt2.store 160 sinkAlwaysOk (msgPayload "alice@example.com")

/-- A store holding `userA` in `expecting_email` with name `"Alice"`. -/
def emailStore : Store :=
  set_state Store.empty 50 userA ⟨some "expecting_email", some "Alice", none⟩

/-- A delivery whose `messaging` list holds one good sub-event and then
a non-dict sub-event (`1`), on which `_handle_message_event` raises
`AttributeError`. -/
def faultyDelivery : Json :=
  Json.obj [("entry", Json.arr [Json.obj
    [("messaging", Json.arr [msgPayload "سلام", Json.num 1])]])]

/-- A store with one stale session (`ts = 0`) and one fresh session
(`ts = 500`). -/
def sweepStore : Store :=
  set_state (set_state Store.empty 0 (Json.str "old") ⟨some "expecting_name", none, none⟩)
    500 (Json.str "fresh") ⟨some "expecting_name", none, none⟩

/-!
## Reachable stores

The store states the program itself can produce, processing messages
sequentially from the empty store at module load: closure under
handling an arbitrary payload (any time, any Lead Sink outcome) and
under sweep passes.
-/

/-- An invariant `Q` holding of every session in the store. -/
def SessionInv (Q : Session → Prop) (store : Store) : Prop :=
  ∀ uid s, store uid = some s → Q s

/-- Stores reachable by sequential processing: the empty store at
module load, closed under `_handle_message_event` for any payload,
time and Lead Sink outcome, and under cleanup passes. -/
inductive Reachable : Store → Prop where
  | empty : Reachable Store.empty
  | handle (now : Int) (sink : Sink) (payload : Json) {store : Store} :
      Reachable store → Reachable (handleMessageEvent store now sink payload).store
  | sweep (now : Int) {store : Store} :
      Reachable store → Reachable (cleanup_pass now store)

/-!
## Helper lemmas
-/

mutual

theorem Json.beq_refl : ∀ a : Json, Json.beq a a = true
  | Json.null => rfl
  | Json.bool b => by simp [Json.beq]
  | Json.num n => by simp [Json.beq]
  | Json.str s => by simp [Json.beq]
  | Json.arr xs => by simp [Json.beq, Json.beqList_refl xs]
  | Json.obj f => by simp [Json.beq, Json.beqFields_refl f]

theorem Json.beqList_refl : ∀ xs : List Json, Json.beqList xs xs = true
  | [] => rfl
  | x :: xs => by simp [Json.beqList, Json.beq_refl x, Json.beqList_refl xs]

theorem Json.beqFields_refl : ∀ xs : List (String × Json), Json.beqFields xs xs = true
  | [] => rfl
  | x :: xs => by simp [Json.beqFields, Json.beq_refl x.2, Json.beqFields_refl xs]

end

theorem splitAtFirstAt_eq {s u w : List Char}
    (h : splitAtFirstAt s = some (u, w)) : s = u ++ '@' :: w := by
  induction s generalizing u w with
  | nil => simp [splitAtFirstAt] at h
  | cons c cs ih =>
    simp only [splitAtFirstAt] at h
    split at h
    · rename_i hc
      simp only [Option.some.injEq, Prod.mk.injEq] at h
      obtain ⟨hu, hw⟩ := h
      subst hu; subst hw; subst hc; rfl
    · split at h
      · rename_i p heq
        simp only [Option.some.injEq, Prod.mk.injEq] at h
        obtain ⟨hu, hw⟩ := h
        subst hu; subst hw
        simpa using congrArg (c :: ·) (ih heq)
      · exact absurd h (by simp)

theorem splitAtFirstAt_append (u w : List Char) (hu : '@' ∉ u) :
    splitAtFirstAt (u ++ '@' :: w) = some (u, w) := by
  induction u with
  | nil => simp [splitAtFirstAt]
  | cons c cs ih =>
    have hc : ¬ c = '@' := fun h => hu (h ▸ List.mem_cons_self c cs)
    have ih' := ih (fun h => hu (List.mem_cons_of_mem _ h))
    simp [splitAtFirstAt, hc, ih']

theorem emailStrictMatch_of_pattern {s : List Char}
    (h : AnchoredEmailPattern s) : emailStrictMatch s = true := by
  obtain ⟨u, v, z, hu, hv, hz, hua, hva, hza, rfl⟩ := h
  have huAt : '@' ∉ u := by
    intro hm
    have := List.all_eq_true.mp hua _ hm
    simp [isEmailChar] at this
  have hs : u ++ ['@'] ++ v ++ ['.'] ++ z = u ++ '@' :: (v ++ '.' :: z) := by
    simp
  rw [hs, emailStrictMatch, splitAtFirstAt_append u (v ++ '.' :: z) huAt]
  obtain ⟨a, v', rfl⟩ := List.exists_cons_of_ne_nil hv
  obtain ⟨b, z', rfl⟩ := List.exists_cons_of_ne_nil hz
  have hdot : (((a :: v' ++ '.' :: b :: z').drop 1).dropLast).contains '.' = true := by
    simp only [List.cons_append, List.drop_succ_cons, List.drop_zero]
    rw [List.dropLast_append_of_ne_nil _ (by simp)]
    simp [List.dropLast]
  simp only [List.all_cons, Bool.and_eq_true] at hva hza
  simp [hu, hua, hdot, List.all_append, List.all_cons, hva.1, hva.2, hza.1, hza.2,
    (by decide : isEmailChar '.' = true)]

theorem emailStrictMatch_sound {s : List Char} (h : emailStrictMatch s = true) :
    ∃ u w, s = u ++ '@' :: w ∧ '.' ∈ w := by
  unfold emailStrictMatch at h
  split at h
  · rename_i u w heq
    refine ⟨u, w, splitAtFirstAt_eq heq, ?_⟩
    simp only [Bool.and_eq_true] at h
    have hc : '.' ∈ (w.drop 1).dropLast := by simpa using h.2
    exact (List.drop_subset 1 w) ((List.dropLast_sublist _).subset hc)
  · exact absurd h (by simp)

theorem emailStrictMatch_false_of_no_at {t : List Char} (h : '@' ∉ t) :
    emailStrictMatch t = false := by
  cases hm : emailStrictMatch t with
  | false => rfl
  | true =>
    obtain ⟨u, w, rfl, -⟩ := emailStrictMatch_sound hm
    exact absurd (by simp) h

theorem emailStrictMatch_false_of_no_dot_split {t : List Char}
    (h : ¬ ∃ u w : List Char, t = u ++ '@' :: w ∧ '.' ∈ w) :
    emailStrictMatch t = false := by
  cases hm : emailStrictMatch t with
  | false => rfl
  | true => exact absurd (emailStrictMatch_sound hm) h

theorem handleFlow_store_shape (store : Store) (now : Int) (sink : Sink)
    (sender : Json) (text : String) :
    (handleFlow store now sink sender text).1
        = set_state store now sender ⟨some "expecting_name", none, none⟩ ∨
    (handleFlow store now sink sender text).1
        = set_state store now sender ⟨some "expecting_email", some text, none⟩ ∨
    (∃ st, store sender = some st ∧ st.truthyDict = true ∧
      (handleFlow store now sink sender text).1 = set_state store now sender st) ∨
    (handleFlow store now sink sender text).1 = clear_state store sender := by
  cases hget : get_state store sender with
  | none => simp [handleFlow, hget, truthyOSession]
  | some st =>
    cases htr : st.truthyDict with
    | false => simp [handleFlow, hget, truthyOSession, htr]
    | true =>
      by_cases h1 : (st.state == some "expecting_name") = true
      · simp [handleFlow, hget, truthyOSession, htr, h1]
      · by_cases h2 : (st.state == some "expecting_email") = true
        · by_cases h3 : is_valid_email (some text) = false
          · refine Or.inr (Or.inr (Or.inl ⟨st, hget, htr, ?_⟩))
            simp [handleFlow, hget, truthyOSession, htr, h1, h2, h3, set_state]
            rfl
          · cases hsink : sink sender (st.name.getD "") text with
            | exn m =>
              refine Or.inr (Or.inr (Or.inr ?_))
              simp [handleFlow, hget, truthyOSession, htr, h1, h2, h3, hsink]
            | ok c b =>
              refine Or.inr (Or.inr (Or.inr ?_))
              simp [handleFlow, hget, truthyOSession, htr, h1, h2, h3, hsink]
        · simp [handleFlow, hget, truthyOSession, htr, h1, h2]

theorem sessionInv_set_state {Q : Session → Prop} {store : Store}
    (h : SessionInv Q store) (now : Int) (uid : Json) (s : Session)
    (hQ : Q { s with ts := some now }) :
    SessionInv Q (set_state store now uid s) := by
  intro k s' hk
  simp only [set_state] at hk
  split at hk
  · cases hk; exact hQ
  · exact h _ _ hk

theorem sessionInv_clear_state {Q : Session → Prop} {store : Store}
    (h : SessionInv Q store) (uid : Json) :
    SessionInv Q (clear_state store uid) := by
  intro k s' hk
  simp only [clear_state] at hk
  split at hk
  · cases hk
  · exact h _ _ hk

theorem handleFlow_preserves (Q : Session → Prop)
    (hwn : ∀ t, Q ⟨some "expecting_name", none, t⟩)
    (hwe : ∀ n t, Q ⟨some "expecting_email", some n, t⟩)
    (hts : ∀ s t, Q s → Q { s with ts := t })
    {store : Store} (hstore : SessionInv Q store)
    (now : Int) (sink : Sink) (sender : Json) (text : String) :
    SessionInv Q (handleFlow store now sink sender text).1 := by
  rcases handleFlow_store_shape store now sink sender text with
    heq | heq | ⟨st, hst, htr, heq⟩ | heq
  · rw [heq]; exact sessionInv_set_state hstore now sender _ (hwn _)
  · rw [heq]; exact sessionInv_set_state hstore now sender _ (hwe _ _)
  · rw [heq]
    exact sessionInv_set_state hstore now sender _ (hts st _ (hstore _ _ hst))
  · rw [heq]; exact sessionInv_clear_state hstore sender

theorem handleMessageEvent_preserves (Q : Session → Prop)
    (hwn : ∀ t, Q ⟨some "expecting_name", none, t⟩)
    (hwe : ∀ n t, Q ⟨some "expecting_email", some n, t⟩)
    (hts : ∀ s t, Q s → Q { s with ts := t })
    {store : Store} (hstore : SessionInv Q store)
    (now : Int) (sink : Sink) (payload : Json) :
    SessionInv Q (handleMessageEvent store now sink payload).store := by
  cases payload with
  | obj fields =>
    simp only [handleMessageEvent]
    split
    · exact hstore
    · split
      · rename_i s _
        split
        · exact hstore
        · exact handleFlow_preserves Q hwn hwe hts hstore now sink _ _
      · exact hstore
  | null => exact hstore
  | bool b => exact hstore
  | num n => exact hstore
  | str s => exact hstore
  | arr xs => exact hstore

theorem cleanup_pass_preserves (Q : Session → Prop) {store : Store}
    (hstore : SessionInv Q store) (now : Int) :
    SessionInv Q (cleanup_pass now store) := by
  intro uid s hs
  cases hst : store uid with
  | none => simp [cleanup_pass, hst] at hs
  | some s' =>
    simp only [cleanup_pass, hst] at hs
    by_cases hlt : s'.ts.getD 0 < now - STATE_TTL
    · simp [hlt] at hs
    · simp only [hlt, if_false, Option.some.injEq] at hs
      subst hs; exact hstore _ _ hst

theorem reachable_inv (Q : Session → Prop)
    (hwn : ∀ t, Q ⟨some "expecting_name", none, t⟩)
    (hwe : ∀ n t, Q ⟨some "expecting_email", some n, t⟩)
    (hts : ∀ s t, Q s → Q { s with ts := t })
    {store : Store} (h : Reachable store) : SessionInv Q store := by
  induction h with
  | empty => intro uid s hs; cases hs
  | handle now sink payload _ ih =>
    exact handleMessageEvent_preserves Q hwn hwe hts ih now sink payload
  | sweep now _ ih => exact cleanup_pass_preserves Q ih now

/-!
## Claim theorems
-/

/-- Claim C5: `is_valid_email` returns true for every string matching
the anchored pattern `[^@\s]+@[^@\s]+\.[^@\s]+`, false for every
string lacking an `@` or lacking a `.` after the `@`, and false
(without raising) on the empty string and on absent (`None`)
input. -/
theorem is_valid_email_spec :
    (∀ s : String, AnchoredEmailPattern s.data → is_valid_email (some s) = true) ∧
    (∀ s : String, '@' ∉ s.data → is_valid_email (some s) = false) ∧
    (∀ s : String, (¬ ∃ u w : List Char, s.data = u ++ '@' :: w ∧ '.' ∈ w) →
      is_valid_email (some s) = false) ∧
    is_valid_email (some "") = false ∧
    is_valid_email none = false := by
  refine ⟨?_, ?_, ?_, by decide, by decide⟩
  · intro s h
    simp [is_valid_email, emailRegexMatch, emailStrictMatch_of_pattern h]
  · intro s hat
    have k1 := emailStrictMatch_false_of_no_at hat
    have k2 : emailStrictMatch s.data.dropLast = false :=
      emailStrictMatch_false_of_no_at
        (fun hm => hat ((List.dropLast_sublist _).subset hm))
    simp [is_valid_email, emailRegexMatch, k1, k2]
  · intro s hno
    have k1 := emailStrictMatch_false_of_no_dot_split hno
    have k2 : emailStrictMatch s.data.dropLast = false := by
      apply emailStrictMatch_false_of_no_dot_split
      rintro ⟨u, w, heq, hdot⟩
      apply hno
      have hne : s.data ≠ [] := by
        intro hnil
        rw [hnil] at heq
        exact absurd heq.symm (by simp)
      refine ⟨u, w ++ [s.data.getLast hne], ?_, by simp [hdot]⟩
      calc s.data = s.data.dropLast ++ [s.data.getLast hne] :=
            (List.dropLast_append_getLast hne).symm
        _ = (u ++ '@' :: w) ++ [s.data.getLast hne] := by rw [heq]
        _ = u ++ '@' :: (w ++ [s.data.getLast hne]) := by simp
    simp [is_valid_email, emailRegexMatch, k1, k2]

/-- Witness for C5: a matching address accepted, a string without `@`
rejected, a string without a `.` after the `@` rejected. -/
theorem is_valid_email_spec_witness :
    is_valid_email (some "a@b.c") = true ∧
    is_valid_email (some "nope") = false ∧
    is_valid_email (some "a@b") = false := by
  refine ⟨is_valid_email_spec.1 "a@b.c"
      ⟨['a'], ['b'], ['c'], by decide, by decide, by decide,
       by decide, by decide, by decide, rfl⟩,
    is_valid_email_spec.2.1 "nope" (by decide), ?_⟩
  apply is_valid_email_spec.2.2.1 "a@b"
  rintro ⟨u, w, heq, hdot⟩
  have : '.' ∈ "a@b".data := by
    rw [heq]
    exact List.mem_append_right u (List.mem_cons_of_mem '@' hdot)
  exact absurd this (by decide)

/-- Claim C4: one cleanup pass removes exactly the sessions whose
last-touch timestamp is older than the TTL at sweep time (age
strictly greater than `STATE_TTL`); every session within the TTL
survives the pass with all its fields unchanged. -/
theorem cleanup_pass_spec (now : Int) (store : Store) (uid : Json) :
    (cleanup_pass now store uid = none ↔
      store uid = none ∨ ∃ s, store uid = some s ∧ now - s.ts.getD 0 > STATE_TTL) ∧
    (∀ s, store uid = some s → now - s.ts.getD 0 ≤ STATE_TTL →
      cleanup_pass now store uid = some s) := by
  constructor
  · cases hstore : store uid with
    | none => simp [cleanup_pass, hstore]
    | some s =>
      simp only [cleanup_pass, hstore]
      constructor
      · intro h
        split at h
        · rename_i hlt
          exact Or.inr ⟨s, rfl, by omega⟩
        · exact absurd h (by simp)
      · rintro (h | ⟨s', hs', hgt⟩)
        · exact absurd h (by simp)
        · simp only [Option.some.injEq] at hs'
          subst hs'
          simp only [if_pos (by omega : s.ts.getD 0 < now - STATE_TTL)]
  · intro s hs hle
    simp only [cleanup_pass, hs]
    rw [if_neg (by omega)]

/-- Witness for C4: at sweep time 700 a session stamped at 0 (age 700
greater than 600) is evicted and a session stamped at 500 (age 200)
survives unchanged. -/
theorem cleanup_pass_spec_witness :
    cleanup_pass 700 sweepStore (Json.str "old") = none ∧
    cleanup_pass 700 sweepStore (Json.str "fresh")
      = some ⟨some "expecting_name", none, some 500⟩ := by
  constructor
  · exact (cleanup_pass_spec 700 sweepStore (Json.str "old")).1.mpr
      (Or.inr ⟨⟨some "expecting_name", none, some 0⟩, by rfl, by decide⟩)
  · exact (cleanup_pass_spec 700 sweepStore (Json.str "fresh")).2
      ⟨some "expecting_name", none, some 500⟩ (by rfl) (by decide)

/-- Claim C6: in `expecting_email` with an invalid email, the session
keeps its state and name (only `ts` is refreshed), exactly one
outbound send occurs — the retry prompt — and the Lead Sink is not
called. -/
theorem invalid_email_retry_spec
    (store : Store) (now : Int) (sink : Sink) (sender : Json) (text : String)
    (st : Session)
    (hst : store sender = some st)
    (hstate : st.state = some "expecting_email")
    (hbad : is_valid_email (some text) = false) :
    (handleFlow store now sink sender text).1 sender = some { st with ts := some now } ∧
    (handleFlow store now sink sender text).2.sends = [(sender, invalidEmailText)] ∧
    (handleFlow store now sink sender text).2.sinkCalls = [] := by
  simp only [handleFlow, get_state, hst]
  simp [truthyOSession, Session.truthyDict, hstate, hbad, Json.beq_refl]

/-- Witness for C6: `"not-an-email"` in `expecting_email` keeps state
and name, sends exactly the retry prompt, calls no Lead Sink. -/
theorem invalid_email_retry_spec_witness :
    (handleFlow emailStore 60 sinkAlwaysOk userA "not-an-email").1 userA
        = some ⟨some "expecting_email", some "Alice", some 60⟩ ∧
    (handleFlow emailStore 60 sinkAlwaysOk userA "not-an-email").2.sends
        = [(userA, invalidEmailText)] ∧
    (handleFlow emailStore 60 sinkAlwaysOk userA "not-an-email").2.sinkCalls = [] :=
  invalid_email_retry_spec emailStore 60 sinkAlwaysOk userA "not-an-email"
    ⟨some "expecting_email", some "Alice", some 50⟩ rfl rfl rfl

/-- Claim C2 (amended): in `expecting_email` with a valid email the
Lead Sink is called exactly once with `(user, name, email)` and the
session is removed in every outcome; the generic failure text is sent
when the call raises, and when the call returns a `(status, body)` —
with any status, 2xx or not, the status is never examined — the
confirmation texts are sent. -/
theorem leadsink_branching_spec
    (store : Store) (now : Int) (sink : Sink) (sender : Json) (text : String)
    (st : Session)
    (hst : store sender = some st)
    (hstate : st.state = some "expecting_email")
    (hok : is_valid_email (some text) = true) :
    (handleFlow store now sink sender text).1 sender = none ∧
    (handleFlow store now sink sender text).2.sinkCalls
      = [(sender, st.name.getD "", text)] ∧
    (∀ m, sink sender (st.name.getD "") text = SinkResult.exn m →
      (handleFlow store now sink sender text).2.sends = [(sender, saveErrorText)]) ∧
    (∀ c b, sink sender (st.name.getD "") text = SinkResult.ok c b →
      (handleFlow store now sink sender text).2.sends
        = [(sender, confirmText (st.name.getD "")), (sender, menuText)]) := by
  cases hsink : sink sender (st.name.getD "") text with
  | exn m =>
    simp [handleFlow, get_state, hst, truthyOSession, Session.truthyDict, hstate,
      hok, hsink, clear_state, Json.beq_refl]
  | ok c b =>
    simp [handleFlow, get_state, hst, truthyOSession, Session.truthyDict, hstate,
      hok, hsink, clear_state, Json.beq_refl]

/-- Counterexample to C2 as stated: a Lead Sink answering HTTP 500 — a
non-2xx status, hence a failure per the claim — still gets the
confirmation texts, not the generic failure text. -/
theorem leadsink_non2xx_still_confirms :
    (handleFlow emailStore 60 sinkStatus500 userA "alice@example.com").2.sends.map
        Prod.snd = [confirmText "Alice", menuText] ∧
    saveErrorText ∉ [confirmText "Alice", menuText] ∧
    (handleFlow emailStore 60 sinkStatus500 userA "alice@example.com").1 userA
      = none :=
  ⟨by rfl, by decide, by rfl⟩

/-- Witness for the amended C2: a succeeding Lead Sink gets exactly one
call and the confirmation texts, and the session is removed. -/
theorem leadsink_branching_spec_witness :
    (handleFlow emailStore 70 sinkAlwaysOk userA "alice@example.com").1 userA
        = none ∧
    (handleFlow emailStore 70 sinkAlwaysOk userA "alice@example.com").2.sinkCalls
        = [(userA, "Alice", "alice@example.com")] ∧
    (handleFlow emailStore 70 sinkAlwaysOk userA "alice@example.com").2.sends
        = [(userA, confirmText "Alice"), (userA, menuText)] := by
  have h := leadsink_branching_spec emailStore 70 sinkAlwaysOk userA
    "alice@example.com" ⟨some "expecting_email", some "Alice", some 50⟩
    rfl rfl (by rfl)
  exact ⟨h.1, h.2.1, h.2.2.2 200 "ok" rfl⟩

/-- Claim C3: the three-message round trip `"شروع"`, `"Alice"`,
`"alice@example.com"` from a brand-new user, with a succeeding Lead
Sink, raises nothing, ends with no session for the user and makes
exactly one Lead Sink call `(user, "Alice", "alice@example.com")`. -/
theorem roundtrip_three_messages :
    rt1.error = none ∧ rt2.error = none ∧ rt3.error = none ∧
    rt3.store userA = none ∧
    ((rt1.effects.append rt2.effects).append rt3.effects).sinkCalls
      = [(userA, "Alice", "alice@example.com")] :=
  ⟨rfl, rfl, rfl, rfl, rfl⟩

/-- Claim C7 (amended): the verification endpoint echoes the challenge
with 200 when `hub.mode` is `"subscribe"` and the supplied token
equals the configured secret; in every other case — including a
matching token without `hub.mode=subscribe` — it answers 403. -/
theorem verify_spec (vt mode token challenge : Option String) :
    (mode = some "subscribe" ∧ token = vt →
      verify vt mode token challenge = (challenge, 200)) ∧
    (mode ≠ some "subscribe" ∨ token ≠ vt →
      verify vt mode token challenge = (some "Verification failed", 403)) := by
  constructor
  · rintro ⟨rfl, rfl⟩
    simp [verify]
  · rintro (h | h) <;> simp [verify, h]

/-- Counterexample to C7 as stated: the token matches the secret but
`hub.mode` is absent, and the response is 403, not 200 with the
challenge. -/
theorem verify_token_without_mode_403 :
    verify (some "secret") none (some "secret") (some "challenge-1")
      = (some "Verification failed", 403) ∧ (403 : Nat) ≠ 200 :=
  ⟨rfl, by decide⟩

/-- Witness for the amended C7: with `hub.mode=subscribe` and a
matching token the challenge is echoed with 200. -/
theorem verify_spec_witness :
    verify (some "secret") (some "subscribe") (some "secret") (some "ch")
      = (some "ch", 200) :=
  (verify_spec (some "secret") (some "subscribe") (some "secret") (some "ch")).1
    ⟨rfl, rfl⟩

/-- Claim C9: a POST whose body parses to a falsy JSON value (absent
body, `null`, `{}`, `[]`, `""`, `0`, `false`) is answered with status
400, the store untouched and no sub-event processed. -/
theorem webhook_falsy_body_400 (store : Store) (now : Int) (sink : Sink)
    (data : Option Json)
    (h : data = none ∨ ∃ d, data = some d ∧ truthy d = false) :
    webhook store now sink data = (("no data", 400), store, noEffects) := by
  rcases h with rfl | ⟨d, rfl, hd⟩
  · rfl
  · simp [webhook, hd]

/-- Witness for C9: the well-formed but empty delivery object is
answered 400 with nothing processed — not acknowledged with 200. -/
theorem webhook_falsy_body_400_witness :
    webhook Store.empty 0 sinkAlwaysOk (some (Json.obj []))
      = (("no data", 400), Store.empty, noEffects) :=
  webhook_falsy_body_400 Store.empty 0 sinkAlwaysOk (some (Json.obj []))
    (Or.inr ⟨Json.obj [], rfl, rfl⟩)

/-- Claim C1 (amended): for a truthy delivery body the handler never
crashes: it keeps the store and effect mutations of the sub-events
already processed, answers 500 with an error body when processing
raised, and answers 200 when it did not — the fault acknowledgment is
500, not a 2xx. -/
theorem webhook_fault_gives_500
    (store : Store) (now : Int) (sink : Sink) (d : Json)
    (hd : truthy d = true) :
    (webhook store now sink (some d)).2.1 = (webhookTry store now sink d).store ∧
    (webhook store now sink (some d)).2.2 = (webhookTry store now sink d).effects ∧
    (∀ e, (webhookTry store now sink d).error = some e →
      (webhook store now sink (some d)).1 = (jsonErrorBody e, 500)) ∧
    ((webhookTry store now sink d).error = none →
      (webhook store now sink (some d)).1 = ("ok", 200)) := by
  cases herr : (webhookTry store now sink d).error with
  | none => simp [webhook, hd, herr]
  | some e => simp [webhook, hd, herr]

/-- Counterexample to C1 as stated: a delivery with one good sub-event
and one raising sub-event is answered 500 — not a 2xx — though the
good sub-event's send was performed. -/
theorem webhook_fault_not_2xx :
    (webhook Store.empty 0 sinkAlwaysOk (some faultyDelivery)).1.2 = 500 ∧
    ¬(200 ≤ (webhook Store.empty 0 sinkAlwaysOk (some faultyDelivery)).1.2 ∧
      (webhook Store.empty 0 sinkAlwaysOk (some faultyDelivery)).1.2 ≤ 299) ∧
    (webhook Store.empty 0 sinkAlwaysOk (some faultyDelivery)).2.2.sends
      = [(userA, pitchText)] := by
  refine ⟨rfl, ?_, rfl⟩
  intro hcontra
  have h5 : (webhook Store.empty 0 sinkAlwaysOk (some faultyDelivery)).1.2 = 500 := rfl
  rw [h5] at hcontra
  omega

/-- Witness for the amended C1: on the faulty delivery the caught
`AttributeError` yields the serialized error body with status 500. -/
theorem webhook_fault_gives_500_witness :
    (webhook Store.empty 0 sinkAlwaysOk (some faultyDelivery)).1
      = (jsonErrorBody "AttributeError: get", 500) :=
  (webhook_fault_gives_500 Store.empty 0 sinkAlwaysOk faultyDelivery rfl).2.2.1
    "AttributeError: get" rfl

/-- Claim C8: in every reachable store a session has a `name` if and
only if its state is `expecting_email`; every transition preserves
this. -/
theorem reachable_name_iff_email {store : Store} (h : Reachable store)
    (uid : Json) (s : Session) (hs : store uid = some s) :
    (s.name.isSome ↔ s.state = some "expecting_email") :=
  reachable_inv (fun s => s.name.isSome ↔ s.state = some "expecting_email")
    (fun t => by simp)
    (fun n t => by simp)
    (fun s t hq => by simpa using hq)
    h uid s hs

/-- Witness for C8: the session created by a first contact — state
`expecting_name`, no name — satisfies the invariant in the store
reached by one handled message. -/
theorem reachable_name_iff_email_witness :
    ((⟨some "expecting_name", none, some 100⟩ : Session).name.isSome
      ↔ (⟨some "expecting_name", none, some 100⟩ : Session).state
          = some "expecting_email") :=
  reachable_name_iff_email
    (Reachable.handle 100 sinkAlwaysOk (msgPayload "سلام") Reachable.empty)
    userA _ rfl

/-- Claim C10: every session the program writes has state
`expecting_name` or `expecting_email`, so the default fallback branch
of `_handle_message_event` is unreachable on program-created
stores. -/
theorem reachable_states_and_no_fallback {store : Store} (h : Reachable store) :
    (∀ uid s, store uid = some s →
      s.state = some "expecting_name" ∨ s.state = some "expecting_email") ∧
    (∀ sender, takesFallbackBranch store sender = false) := by
  have inv := reachable_inv
    (fun s => s.state = some "expecting_name" ∨ s.state = some "expecting_email")
    (fun t => by simp)
    (fun n t => by simp)
    (fun s t hq => by simpa using hq)
    h
  refine ⟨inv, ?_⟩
  intro sender
  cases hst : store sender with
  | none => simp [takesFallbackBranch, get_state, hst, truthyOSession]
  | some st =>
    rcases inv sender st hst with h1 | h1 <;>
      simp [takesFallbackBranch, get_state, hst, h1, truthyOSession]

/-- Witness for C10: after the first round-trip message the fallback
guard is false for the user. -/
theorem reachable_states_and_no_fallback_witness :
    takesFallbackBranch rt1.store userA = false :=
  (reachable_states_and_no_fallback
    (Reachable.handle 100 sinkAlwaysOk (msgPayload "شروع") Reachable.empty)).2 userA

end InstagramBot
